import Mathlib

/-!
Verification of the subscription tier / rate-limiting core of the
conceptus-veritas backend.

The definitions below are a shallow embedding of the Python sources:
  backend/src/services/subscription/subscription_service.py
  backend/src/services/subscription/rate_limit_service.py
  backend/src/api/v1/subscription/middleware.py
  backend/src/api/v1/subscription/routes.py
  backend/src/models/user.py, backend/src/models/subscription.py

Conventions of the embedding:
- the SQLAlchemy session/database is an explicit `DB` value threaded through
  the functions; tables are association lists keyed the way the queries
  filter them;
- user ids are `Nat` (UUIDs are only compared for equality), calendar days
  are `Nat` (date.today() is passed in as the ambient parameter `today`),
  counters are `Int` (the usage_count column is a signed integer);
- wall-clock derived metadata (seconds until midnight) is passed in as the
  ambient parameter `reset_seconds`; the ISO reset_time string, timestamps
  and the free-form event metadata dict are not modelled, no claim touches
  them;
- functions that can raise HTTPException return `Except HTTPError`.
-/

/-- Embeds UserSubscription (models/subscription.py): the fields the core
reads. Stripe ids and billing-period timestamps are opaque and omitted. -/
structure UserSubscription where
  subscription_tier : String
  status : String
  cancel_at_period_end : Bool
  deriving DecidableEq, Repr

/-- Key of the feature_usage table: (user_id, feature_name, usage_date). -/
structure UsageKey where
  user_id : Nat
  feature_name : String
  usage_date : Nat
  deriving DecidableEq, Repr

/-- Embeds SubscriptionEvent (models/subscription.py); id, timestamps and
the metadata dict are omitted. -/
structure SubscriptionEvent where
  user_id : Nat
  event_type : String
  previous_tier : Option String
  new_tier : Option String
  deriving DecidableEq, Repr

/-- The durable store: user_subscriptions keyed by user_id, feature_usage
keyed by (user, feature, day), and the append-only subscription_events. -/
structure DB where
  subscriptions : List (Nat × UserSubscription)
  usage : List (UsageKey × Int)
  events : List SubscriptionEvent
  deriving DecidableEq, Repr

/-- Embeds fastapi.HTTPException as raised by the middleware/routes. -/
structure HTTPError where
  status_code : Nat
  headers : List (String × String)
  deriving DecidableEq, Repr

/-- TIER_LIMITS (subscription_service.py lines 35-72), in dict insertion
order free, premium, pro; inner dicts in their insertion order. -/
def TIER_LIMITS : List (String × List (String × Int)) :=
  [("free",
    [("ask_questions", 10),
     ("journal_entries", 5),
     ("quest_daily", 1),
     ("forum_threads", 3),
     ("forum_comments", 10),
     ("forum_votes", 20),
     ("insight_expansion", 0),
     ("save_to_journal", 5),
     ("concept_tagging", 3),
     ("media_attachments", 2)]),
   ("premium",
    [("ask_questions", 50),
     ("journal_entries", 100000),
     ("quest_daily", 3),
     ("forum_threads", 10),
     ("forum_comments", 30),
     ("forum_votes", 50),
     ("insight_expansion", 5),
     ("save_to_journal", 25),
     ("concept_tagging", 10),
     ("media_attachments", 5)]),
   ("pro",
    [("ask_questions", 100000),
     ("journal_entries", 100000),
     ("quest_daily", 5),
     ("forum_threads", 100000),
     ("forum_comments", 100000),
     ("forum_votes", 100000),
     ("insight_expansion", 100000),
     ("save_to_journal", 100000),
     ("concept_tagging", 100000),
     ("media_attachments", 100000)])]

/-- TIER_FEATURES (subscription_service.py lines 75-118), in dict insertion
order free, premium, pro. -/
def TIER_FEATURES : List (String × List String) :=
  [("free",
    ["basic_ask", "basic_journal", "basic_quest", "basic_explore",
     "basic_forum"]),
   ("premium",
    ["basic_ask", "basic_journal", "basic_quest", "basic_explore",
     "basic_forum", "advanced_ask", "unlimited_journal", "advanced_quest",
     "advanced_explore", "advanced_forum", "extended_responses",
     "insight_expansion", "advanced_visualization"]),
   ("pro",
    ["basic_ask", "basic_journal", "basic_quest", "basic_explore",
     "basic_forum", "advanced_ask", "unlimited_journal", "advanced_quest",
     "advanced_explore", "advanced_forum", "extended_responses",
     "insight_expansion", "advanced_visualization", "unlimited_ask",
     "custom_pathways", "premium_ai_models", "exclusive_content",
     "unlimited_export"])]

/-- Python TIER_LIMITS.get(user_tier, \x7b\x7d): the per-feature limit dict
of a tier, empty for an unrecognized tier. -/
def tierLimitsOf (tier : String) : List (String × Int) :=
  match TIER_LIMITS.find? (fun p => p.1 == tier) with
  | some p => p.2
  | none => []

/-- Python TIER_LIMITS[tier] membership / indexing combined: some limit when
feature_name is a key of the tier's limit dict. -/
def limitOf (tier : String) (feature_name : String) : Option Int :=
  (tierLimitsOf tier |>.find? (fun p => p.1 == feature_name)).map (fun p => p.2)

/-- Python TIER_FEATURES.get-style lookup of a tier's feature list (empty
for an unrecognized tier). -/
def tierFeaturesOf (tier : String) : List String :=
  match TIER_FEATURES.find? (fun p => p.1 == tier) with
  | some p => p.2
  | none => []

/-- The accumulation loop of SubscriptionService.check_feature_access
(lines 317-321): walk TIER_FEATURES in insertion order, extend, and stop
after the entry whose key equals user_tier. If no key matches, every
tier's list is collected. -/
def collectFeatures (user_tier : String) : List (String × List String) → List String
  | [] => []
  | (t, fs) :: rest =>
    fs ++ (if t == user_tier then [] else collectFeatures user_tier rest)

/-- available_features as computed by check_feature_access and by the
/features route handler (routes.py lines 153-157). -/
def available_features (user_tier : String) : List String :=
  collectFeatures user_tier TIER_FEATURES

/-- SubscriptionService.get_user_subscription (lines 128-138): first row of
user_subscriptions with matching user_id. -/
def get_user_subscription (db : DB) (user_id : Nat) : Option UserSubscription :=
  (db.subscriptions.find? (fun p => p.1 == user_id)).map (fun p => p.2)

/-- SubscriptionService.get_user_tier (lines 288-301): free when the row is
absent or not is_active (status == "active"), else the stored tier. -/
def get_user_tier (db : DB) (user_id : Nat) : String :=
  match get_user_subscription db user_id with
  | none => "free"
  | some s => if s.status == "active" then s.subscription_tier else "free"

/-- SubscriptionService.check_feature_access (lines 303-323). -/
def check_feature_access (db : DB) (user_id : Nat) (feature_name : String) : Bool :=
  (available_features (get_user_tier db user_id)).contains feature_name

/-- Joined feature lists of every tier: what the accumulation loop collects
when the user's tier matches no catalog key. -/
def allTierFeatures : List String :=
  (TIER_FEATURES.map (fun p => p.2)).flatten

/--
C7: over the static tier catalog, for tiers ranked free < premium < pro,
the feature set reachable at a lower tier is a subset of the one reachable
at a higher tier, and every feature with a configured limit at both tiers
has a limit at the lower tier that is at most the limit at the higher tier.
-/
theorem c7_tier_catalog_monotone :
    ((available_features "free").all
      (fun f => (available_features "premium").contains f) = true) ∧
    ((available_features "premium").all
      (fun f => (available_features "pro").contains f) = true) ∧
    ((available_features "free").all
      (fun f => (available_features "pro").contains f) = true) ∧
    ((tierLimitsOf "free").all
      (fun p => match limitOf "premium" p.1 with
        | some l2 => decide (p.2 ≤ l2)
        | none => true) = true) ∧
    ((tierLimitsOf "premium").all
      (fun p => match limitOf "pro" p.1 with
        | some l2 => decide (p.2 ≤ l2)
        | none => true) = true) ∧
    ((tierLimitsOf "free").all
      (fun p => match limitOf "pro" p.1 with
        | some l2 => decide (p.2 ≤ l2)
        | none => true) = true) := by
  decide

/-- The (user_id, feature_name, usage_date) key used by the FeatureUsage
queries. -/
def usageKey (user_id : Nat) (feature_name : String) (today : Nat) : UsageKey :=
  ⟨user_id, feature_name, today⟩

/-- The stored usage_count for a key, none when no row exists. -/
def usageCount (db : DB) (k : UsageKey) : Option Int :=
  (db.usage.find? (fun p => p.1 == k)).map (fun p => p.2)

/-- SubscriptionService.check_usage_limit (lines 325-356): untracked
features answer (True, 9999); otherwise remaining = max(0, limit - used)
and allowed = remaining > 0. -/
def check_usage_limit (db : DB) (user_id : Nat) (feature_name : String)
    (today : Nat) : Bool × Int :=
  let user_tier := get_user_tier db user_id
  match limitOf user_tier feature_name with
  | none => (true, 9999)
  | some daily_limit =>
    let used_today := (usageCount db (usageKey user_id feature_name today)).getD 0
    let remaining := max 0 (daily_limit - used_today)
    (decide (0 < remaining), remaining)

/-- SubscriptionService.increment_usage (lines 358-406): creates the row
with usage_count = amount when absent, else adds amount to the existing
row; returns the post-increment count and the updated store. -/
def increment_usage (db : DB) (user_id : Nat) (feature_name : String)
    (today : Nat) (amount : Int) : Int × DB :=
  let key := usageKey user_id feature_name today
  match db.usage.find? (fun p => p.1 == key) with
  | none =>
    (amount, { db with usage := db.usage ++ [(key, amount)] })
  | some p =>
    let v := p.2 + amount
    (v, { db with
          usage := db.usage.map (fun q => if q.1 == key then (q.1, v) else q) })

/-- The metadata dict built by RateLimitService.check_rate_limit; fields
absent from a given dict are modelled as none. -/
structure RateLimitMeta where
  tier : String
  limit_type : String
  reset_seconds : Option Int
  limit : Option Int
  upgrade_required : Option Bool
  remaining : Option Int
  deriving DecidableEq, Repr

/-- RateLimitService.check_rate_limit (rate_limit_service.py lines 36-76):
untracked features short-circuit to (True, 9999, limit_type "none");
otherwise defer to check_usage_limit and build the daily metadata.
`reset_seconds` stands for the wall-clock seconds-until-midnight value. -/
def check_rate_limit (db : DB) (user_id : Nat) (feature_name : String)
    (today : Nat) (reset_seconds : Int) : Bool × Int × RateLimitMeta :=
  let user_tier := get_user_tier db user_id
  match limitOf user_tier feature_name with
  | none =>
    (true, 9999,
     { tier := user_tier, limit_type := "none", reset_seconds := none,
       limit := none, upgrade_required := none, remaining := none })
  | some daily_limit =>
    let r := check_usage_limit db user_id feature_name today
    (r.1, r.2,
     { tier := user_tier, limit_type := "daily",
       reset_seconds := some reset_seconds, limit := some daily_limit,
       upgrade_required := some (!r.1 && !(user_tier == "pro")),
       remaining := none })

/-- RateLimitService.increment_and_check (rate_limit_service.py lines
78-108): check first; when allowed, increment by min(amount, remaining)
and recompute remaining; when not allowed, return without any store
write. -/
def increment_and_check (db : DB) (user_id : Nat) (feature_name : String)
    (amount : Int) (today : Nat) (reset_seconds : Int) :
    (Bool × Int × RateLimitMeta) × DB :=
  let r := check_rate_limit db user_id feature_name today reset_seconds
  let allowed := r.1
  let remaining := r.2.1
  let md := r.2.2
  if allowed then
    let increment_amount := min amount remaining
    let r2 := increment_usage db user_id feature_name today increment_amount
    let remaining2 := max 0 (remaining - increment_amount)
    ((allowed, remaining2, { md with remaining := some remaining2 }), r2.2)
  else
    ((allowed, remaining, md), db)

/-- Helper: find? skips a prefix in which nothing matches. -/
theorem find?_append_of_none {α : Type} (p : α → Bool) (l1 l2 : List α)
    (h : l1.find? p = none) : (l1 ++ l2).find? p = l2.find? p := by
  induction l1 with
  | nil => rfl
  | cons a t ih =>
    rw [List.find?] at h
    cases hp : p a with
    | true => rw [hp] at h; exact absurd h (by simp)
    | false =>
      rw [hp] at h
      rw [List.cons_append, List.find?, hp]
      exact ih h

/-- Helper: rewriting the value at the first key match is seen by find?. -/
theorem find?_map_update (l : List (UsageKey × Int)) (k : UsageKey) (v : Int)
    (h : (l.find? (fun p => p.1 == k)).isSome = true) :
    ((l.map (fun q => if q.1 == k then (q.1, v) else q)).find?
      (fun p => p.1 == k)) = some (k, v) := by
  induction l with
  | nil => simp [List.find?] at h
  | cons a t ih =>
    cases ha : (a.1 == k) with
    | true =>
      have hk : a.1 = k := by simpa using ha
      rw [List.map_cons, if_pos ha, List.find?_cons_of_pos _ (by simpa using ha), hk]
    | false =>
      rw [List.find?_cons_of_neg _ (by simp [ha])] at h
      rw [List.map_cons, if_neg (by simp [ha]),
        List.find?_cons_of_neg _ (by simp [ha])]
      exact ih h

/-- Helper: the post-increment count is the prior count (0 when the row is
absent) plus the amount. -/
theorem usageCount_increment_usage (db : DB) (user_id : Nat)
    (feature_name : String) (today : Nat) (amount : Int) :
    usageCount (increment_usage db user_id feature_name today amount).2
        (usageKey user_id feature_name today) =
      some ((usageCount db (usageKey user_id feature_name today)).getD 0 + amount) := by
  cases h : db.usage.find? (fun p => p.1 == usageKey user_id feature_name today) with
  | none =>
    simp only [increment_usage, usageCount, h]
    rw [find?_append_of_none _ _ _ h]
    simp [List.find?]
  | some p =>
    have hp := List.find?_some h
    simp only [usageCount, h] at hp ⊢
    simp only [increment_usage, h]
    rw [find?_map_update _ _ _ (by simp [h])]
    simp

/--
C1: for a feature with a configured daily limit L at the user's resolved
tier and a positive requested amount, increment_and_check advances the
stored counter by at most min(amount, max(0, L - current)), never pushes a
counter that was within the limit above L, and on a not-allowed pre-check
performs no write and returns remaining = 0.
-/
theorem c1_increment_and_check_capped
    (db : DB) (user_id today : Nat) (feature_name : String)
    (amount L reset_seconds : Int)
    (hL : limitOf (get_user_tier db user_id) feature_name = some L)
    (ha : 1 ≤ amount) :
    ((usageCount (increment_and_check db user_id feature_name amount today
          reset_seconds).2 (usageKey user_id feature_name today)).getD 0 -
        (usageCount db (usageKey user_id feature_name today)).getD 0 ≤
      min amount
        (max 0 (L - (usageCount db (usageKey user_id feature_name today)).getD 0))) ∧
    ((usageCount db (usageKey user_id feature_name today)).getD 0 ≤ L →
      (usageCount (increment_and_check db user_id feature_name amount today
          reset_seconds).2 (usageKey user_id feature_name today)).getD 0 ≤ L) ∧
    ((increment_and_check db user_id feature_name amount today
        reset_seconds).1.1 = false →
      (increment_and_check db user_id feature_name amount today
        reset_seconds).2 = db ∧
      (increment_and_check db user_id feature_name amount today
        reset_seconds).1.2.1 = 0) := by
  set c := (usageCount db (usageKey user_id feature_name today)).getD 0 with hc
  by_cases hlt : 0 < max 0 (L - c)
  · have h2 : (increment_and_check db user_id feature_name amount today
        reset_seconds).2 =
        (increment_usage db user_id feature_name today
          (min amount (max 0 (L - c)))).2 := by
      simp [increment_and_check, check_rate_limit, check_usage_limit, hL,
        ← hc, hlt]
    have h11 : (increment_and_check db user_id feature_name amount today
        reset_seconds).1.1 = true := by
      simp [increment_and_check, check_rate_limit, check_usage_limit, hL,
        ← hc, hlt]
    have hcnt : (usageCount (increment_and_check db user_id feature_name
        amount today reset_seconds).2
          (usageKey user_id feature_name today)).getD 0 =
        c + min amount (max 0 (L - c)) := by
      rw [h2, usageCount_increment_usage, ← hc]
      rfl
    refine ⟨?_, ?_, ?_⟩
    · rw [hcnt]; omega
    · intro hcl; rw [hcnt]; omega
    · intro hfalse; rw [h11] at hfalse; exact absurd hfalse (by simp)
  · have h2 : (increment_and_check db user_id feature_name amount today
        reset_seconds).2 = db := by
      simp [increment_and_check, check_rate_limit, check_usage_limit, hL,
        ← hc, hlt]
    have h121 : (increment_and_check db user_id feature_name amount today
        reset_seconds).1.2.1 = max 0 (L - c) := by
      simp [increment_and_check, check_rate_limit, check_usage_limit, hL,
        ← hc, hlt]
    refine ⟨?_, ?_, ?_⟩
    · rw [h2, ← hc]; omega
    · intro hcl; rw [h2, ← hc]; exact hcl
    · intro _; exact ⟨h2, by rw [h121]; omega⟩

/--
Witness for C1 at the spec's worked example: free-tier user (no
subscription row), feature ask_questions with limit 10, current counter 8,
requested amount 5. The counter ends at 10 and remaining is 0.
-/
theorem c1_witness :
    ((usageCount (increment_and_check
          ⟨[], [(⟨1, "ask_questions", 0⟩, 8)], []⟩ 1 "ask_questions" 5 0
          0).2 (usageKey 1 "ask_questions" 0)).getD 0 -
        (usageCount ⟨[], [(⟨1, "ask_questions", 0⟩, 8)], []⟩
          (usageKey 1 "ask_questions" 0)).getD 0 ≤
      min 5
        (max 0 (10 - (usageCount ⟨[], [(⟨1, "ask_questions", 0⟩, 8)], []⟩
          (usageKey 1 "ask_questions" 0)).getD 0))) ∧
    ((usageCount ⟨[], [(⟨1, "ask_questions", 0⟩, 8)], []⟩
        (usageKey 1 "ask_questions" 0)).getD 0 ≤ 10 →
      (usageCount (increment_and_check
          ⟨[], [(⟨1, "ask_questions", 0⟩, 8)], []⟩ 1 "ask_questions" 5 0
          0).2 (usageKey 1 "ask_questions" 0)).getD 0 ≤ 10) ∧
    ((increment_and_check ⟨[], [(⟨1, "ask_questions", 0⟩, 8)], []⟩ 1
        "ask_questions" 5 0 0).1.1 = false →
      (increment_and_check ⟨[], [(⟨1, "ask_questions", 0⟩, 8)], []⟩ 1
        "ask_questions" 5 0 0).2 = ⟨[], [(⟨1, "ask_questions", 0⟩, 8)], []⟩ ∧
      (increment_and_check ⟨[], [(⟨1, "ask_questions", 0⟩, 8)], []⟩ 1
        "ask_questions" 5 0 0).1.2.1 = 0) :=
  c1_increment_and_check_capped ⟨[], [(⟨1, "ask_questions", 0⟩, 8)], []⟩
    1 0 "ask_questions" 5 10 0 (by decide) (by decide)

/-- get_user_tier reads only the subscriptions table: replacing the usage
store does not change the resolved tier. -/
theorem get_user_tier_usage_invariant (db : DB) (user_id : Nat)
    (usage2 : List (UsageKey × Int)) :
    get_user_tier { db with usage := usage2 } user_id = get_user_tier db user_id :=
  rfl

/--
C4 counterexample: a user whose active subscription row carries the
unrecognized tier "gold" is granted the pro-only feature custom_pathways
(which the free tier does not contain) and unlimited ask_questions usage
(where the free tier limit is 10) — the code does not treat an
unrecognized tier as free.
-/
theorem c4_counterexample :
    check_feature_access ⟨[(1, ⟨"gold", "active", false⟩)], [], []⟩ 1
        "custom_pathways" = true ∧
    (tierFeaturesOf "free").contains "custom_pathways" = false ∧
    check_usage_limit ⟨[(1, ⟨"gold", "active", false⟩)], [], []⟩ 1
        "ask_questions" 0 = (true, 9999) ∧
    limitOf "free" "ask_questions" = some 10 := by
  decide

/--
C4 amended: for every user whose resolved tier matches no key of the
catalog, check_feature_access grants exactly the union of every tier's
feature list (the accumulation loop never hits its break), and the usage
checks treat every feature as untracked: check_usage_limit answers
(true, 9999) and check_rate_limit allows with the 9999 sentinel.
-/
theorem c4_unrecognized_tier_promoted
    (db : DB) (user_id today : Nat) (feature_name : String)
    (reset_seconds : Int)
    (h1 : get_user_tier db user_id ≠ "free")
    (h2 : get_user_tier db user_id ≠ "premium")
    (h3 : get_user_tier db user_id ≠ "pro") :
    check_feature_access db user_id feature_name =
      allTierFeatures.contains feature_name ∧
    check_usage_limit db user_id feature_name today = (true, 9999) ∧
    (check_rate_limit db user_id feature_name today reset_seconds).1 = true ∧
    (check_rate_limit db user_id feature_name today reset_seconds).2.1 = 9999 := by
  have hf : ("free" == get_user_tier db user_id) = false := by
    rw [beq_eq_false_iff_ne]; exact Ne.symm h1
  have hp : ("premium" == get_user_tier db user_id) = false := by
    rw [beq_eq_false_iff_ne]; exact Ne.symm h2
  have hr : ("pro" == get_user_tier db user_id) = false := by
    rw [beq_eq_false_iff_ne]; exact Ne.symm h3
  have hnone : limitOf (get_user_tier db user_id) feature_name = none := by
    simp [limitOf, tierLimitsOf, TIER_LIMITS, List.find?, hf, hp, hr]
  refine ⟨?_, ?_, ?_, ?_⟩
  · simp [check_feature_access, available_features, collectFeatures,
      TIER_FEATURES, allTierFeatures, hf, hp, hr]
  · simp [check_usage_limit, hnone]
  · simp [check_rate_limit, hnone]
  · simp [check_rate_limit, hnone]

/--
Witness for C4 at tier "gold" (active): feature access answers via the
all-tiers union and usage checking is unlimited.
-/
theorem c4_witness :
    check_feature_access ⟨[(1, ⟨"gold", "active", false⟩)], [], []⟩ 1
        "premium_ai_models" = allTierFeatures.contains "premium_ai_models" ∧
    check_usage_limit ⟨[(1, ⟨"gold", "active", false⟩)], [], []⟩ 1
        "premium_ai_models" 0 = (true, 9999) ∧
    (check_rate_limit ⟨[(1, ⟨"gold", "active", false⟩)], [], []⟩ 1
        "premium_ai_models" 0 0).1 = true ∧
    (check_rate_limit ⟨[(1, ⟨"gold", "active", false⟩)], [], []⟩ 1
        "premium_ai_models" 0 0).2.1 = 9999 :=
  c4_unrecognized_tier_promoted ⟨[(1, ⟨"gold", "active", false⟩)], [], []⟩
    1 0 "premium_ai_models" 0 (by decide) (by decide) (by decide)

/--
C5 counterexample: for a free user and the untracked feature basic_ask,
increment_and_check does write the usage store (a row with count 1
appears) and returns remaining 9998, not the untouched 9999 sentinel.
-/
theorem c5_counterexample :
    (increment_and_check ⟨[], [], []⟩ 1 "basic_ask" 1 0 0).2.usage =
      [(⟨1, "basic_ask", 0⟩, 1)] ∧
    (increment_and_check ⟨[], [], []⟩ 1 "basic_ask" 1 0 0).1.2.1 = 9998 ∧
    limitOf (get_user_tier ⟨[], [], []⟩ 1) "basic_ask" = none := by
  decide

/--
C5 amended: for a feature with no configured limit at the user's resolved
tier, the check-only path short-circuits with allowed = true, the 9999
sentinel and limit_type "none", reading nothing from the usage store (its
answer is invariant under replacing the store); check_usage_limit likewise
answers (true, 9999) without a store read; but the check-and-track path
still writes: increment_and_check increments the counter by
min(amount, 9999) and returns remaining = max(0, 9999 - min(amount, 9999)).
-/
theorem c5_untracked_feature_paths
    (db : DB) (user_id today : Nat) (feature_name : String)
    (amount reset_seconds : Int)
    (hNone : limitOf (get_user_tier db user_id) feature_name = none) :
    (∀ usage2 : List (UsageKey × Int),
      check_rate_limit { db with usage := usage2 } user_id feature_name
          today reset_seconds =
        (true, 9999,
         ⟨get_user_tier db user_id, "none", none, none, none, none⟩)) ∧
    check_usage_limit db user_id feature_name today = (true, 9999) ∧
    (increment_and_check db user_id feature_name amount today
        reset_seconds).2 =
      (increment_usage db user_id feature_name today (min amount 9999)).2 ∧
    (increment_and_check db user_id feature_name amount today
        reset_seconds).1.2.1 = max 0 (9999 - min amount 9999) := by
  refine ⟨fun usage2 => ?_, ?_, ?_, ?_⟩
  · have hN2 : limitOf (get_user_tier { db with usage := usage2 } user_id)
        feature_name = none := hNone
    simp [check_rate_limit, hN2]
    rfl
  · simp [check_usage_limit, hNone]
  · simp [increment_and_check, check_rate_limit, hNone]
  · simp [increment_and_check, check_rate_limit, hNone]

/--
Witness for C5: free user (no subscription row), untracked feature
basic_ask, amount 1, including one instantiation of the store-invariance
conjunct at a non-empty usage store.
-/
theorem c5_witness :
    check_rate_limit ⟨[], [(⟨2, "ask_questions", 0⟩, 7)], []⟩ 1 "basic_ask"
        0 0 = (true, 9999, ⟨"free", "none", none, none, none, none⟩) ∧
    check_usage_limit ⟨[], [], []⟩ 1 "basic_ask" 0 = (true, 9999) ∧
    (increment_and_check ⟨[], [], []⟩ 1 "basic_ask" 1 0 0).2 =
      (increment_usage ⟨[], [], []⟩ 1 "basic_ask" 0 (min 1 9999)).2 ∧
    (increment_and_check ⟨[], [], []⟩ 1 "basic_ask" 1 0 0).1.2.1 =
      max 0 (9999 - min 1 9999) := by
  obtain ⟨h1, h2, h3, h4⟩ :=
    c5_untracked_feature_paths ⟨[], [], []⟩ 1 0 "basic_ask" 1 0 (by decide)
  exact ⟨h1 [(⟨2, "ask_questions", 0⟩, 7)], h2, h3, h4⟩

/--
C6 (evaluating the code at the failing input): a free user with 5
ask_questions uses today who requests amount = -3 is not rejected; the
pre-check allows, the store is written, and the counter is decremented
from 5 to 2 — contradicting the claim that amount ≤ 0 is rejected without
a store call.
-/
theorem c6_negative_amount_reaches_store :
    (increment_and_check ⟨[], [(⟨1, "ask_questions", 0⟩, 5)], []⟩ 1
        "ask_questions" (-3) 0 0).1.1 = true ∧
    usageCount
        (increment_and_check ⟨[], [(⟨1, "ask_questions", 0⟩, 5)], []⟩ 1
          "ask_questions" (-3) 0 0).2 (usageKey 1 "ask_questions" 0) =
      some 2 := by
  decide

/-- tier_levels dict of User.is_tier_or_higher (models/user.py line 63). -/
def tier_levels : List (String × Nat) :=
  [("free", 0), ("premium", 1), ("pro", 2)]

/-- Python tier_levels.get(tier, 0). -/
def tierLevel (tier : String) : Nat :=
  match tier_levels.find? (fun p => p.1 == tier) with
  | some p => p.2
  | none => 0

/-- The User.subscription_tier property (models/user.py lines 46-51): the
raw stored tier, free only when no row exists — status is not consulted. -/
def user_subscription_tier (db : DB) (user_id : Nat) : String :=
  match get_user_subscription db user_id with
  | none => "free"
  | some s => s.subscription_tier

/-- User.is_tier_or_higher (models/user.py lines 53-68): rank comparison on
the raw subscription_tier property. -/
def is_tier_or_higher (db : DB) (user_id : Nat) (tier : String) : Bool :=
  decide (tierLevel tier ≤ tierLevel (user_subscription_tier db user_id))

/-- verify_subscription_tier dependency (middleware.py lines 28-78): 402
when User.is_tier_or_higher fails, else the current user. The human-readable
detail string is not modelled. -/
def verify_subscription_tier (required_tier : String) (db : DB)
    (user_id : Nat) : Except HTTPError Nat :=
  let user_tier := get_user_tier db user_id
  if is_tier_or_higher db user_id required_tier then .ok user_id
  else
    .error
      { status_code := 402,
        headers := [("X-Current-Tier", user_tier),
                    ("X-Required-Tier", required_tier),
                    ("X-Upgrade-Required", "true")] }

/-- The inline required-tier loop of verify_feature_access (middleware.py
lines 112-117) and of the /feature-access route (routes.py lines 91-96):
the first catalog tier whose feature list contains the feature. -/
def required_tier_lookup (feature_name : String) : Option String :=
  (TIER_FEATURES.find? (fun p => p.2.contains feature_name)).map (fun p => p.1)

/-- verify_feature_access dependency (middleware.py lines 81-135); the
Python `required_tier or "premium"` default on the none case is getD,
tier names being non-empty strings. -/
def verify_feature_access (feature_name : String) (db : DB)
    (user_id : Nat) : Except HTTPError Nat :=
  if check_feature_access db user_id feature_name then .ok user_id
  else
    .error
      { status_code := 402,
        headers := [("X-Current-Tier", get_user_tier db user_id),
                    ("X-Required-Tier",
                      (required_tier_lookup feature_name).getD "premium"),
                    ("X-Feature-Name", feature_name),
                    ("X-Upgrade-Required", "true")] }

/-- RateLimitService.get_rate_limit_headers (rate_limit_service.py lines
121-141); the allowed argument is taken but unused, as in the source. -/
def get_rate_limit_headers (_allowed : Bool) (remaining : Int)
    (md : RateLimitMeta) : List (String × String) :=
  [("X-RateLimit-Limit", toString (md.limit.getD 0)),
   ("X-RateLimit-Remaining", toString remaining),
   ("X-RateLimit-Reset", toString (md.reset_seconds.getD 0)),
   ("X-Tier-Level", md.tier),
   ("X-Upgrade-Required",
     if md.upgrade_required.getD false then "true" else "false")]

/-- verify_usage_limit dependency (middleware.py lines 138-184): check-only;
attaches the rate-limit headers and raises 429 when not allowed. -/
def verify_usage_limit (feature_name : String) (db : DB) (user_id : Nat)
    (today : Nat) (reset_seconds : Int) :
    Except HTTPError (Nat × List (String × String)) :=
  let r := check_rate_limit db user_id feature_name today reset_seconds
  let hdrs := get_rate_limit_headers r.1 r.2.1 r.2.2
  if r.1 then .ok (user_id, hdrs)
  else .error { status_code := 429, headers := hdrs }

/-- track_usage dependency (middleware.py lines 187-226): increments and
attaches headers, and returns the current user unconditionally. -/
def track_usage (feature_name : String) (amount : Int) (db : DB)
    (user_id : Nat) (today : Nat) (reset_seconds : Int) :
    Except HTTPError (Nat × List (String × String) × DB) :=
  let r := increment_and_check db user_id feature_name amount today reset_seconds
  .ok (user_id, get_rate_limit_headers r.1.1 r.1.2.1 r.1.2.2, r.2)

/-- Response body of the /feature-access/\x7bfeature_name\x7d route. -/
structure FeatureAccessResponse where
  feature_name : String
  has_access : Bool
  current_tier : String
  required_tier : String
  deriving DecidableEq, Repr

/-- The /feature-access route handler (routes.py lines 67-103): 404 when
the feature occurs in no tier's list, else the access answer with the
required tier (getD "unknown" is unreachable there, kept as in source). -/
def route_check_feature_access (db : DB) (user_id : Nat)
    (feature_name : String) : Except HTTPError FeatureAccessResponse :=
  let has_access := check_feature_access db user_id feature_name
  let feature_exists := TIER_FEATURES.any (fun p => p.2.contains feature_name)
  if feature_exists then
    .ok { feature_name := feature_name, has_access := has_access,
          current_tier := get_user_tier db user_id,
          required_tier := (required_tier_lookup feature_name).getD "unknown" }
  else
    .error { status_code := 404, headers := [] }

/--
C3 (evaluating the code at the failing input): for a user whose stored
subscription has tier "premium" but status "canceled", get_user_tier does
resolve to free, yet User.is_tier_or_higher reads the raw tier field
without consulting status, so the verify_subscription_tier access decision
still grants the premium-gated request — contradicting the claim that no
access decision grants an inactive subscription entitlements above free.
-/
theorem c3_inactive_subscription_passes_tier_gate :
    get_user_tier ⟨[(1, ⟨"premium", "canceled", false⟩)], [], []⟩ 1 =
      "free" ∧
    is_tier_or_higher ⟨[(1, ⟨"premium", "canceled", false⟩)], [], []⟩ 1
      "premium" = true ∧
    verify_subscription_tier "premium"
      ⟨[(1, ⟨"premium", "canceled", false⟩)], [], []⟩ 1 = .ok 1 :=
  ⟨by decide, by decide, rfl⟩

/-- Helper: contains distributes over list append. -/
theorem contains_append (l1 l2 : List String) (a : String) :
    (l1 ++ l2).contains a = (l1.contains a || l2.contains a) := by
  induction l1 with
  | nil => simp
  | cons b t ih => simp [List.contains_cons, ih, Bool.or_assoc]

/--
C8 counterexample: for a feature name that occurs in no tier's list, the
inline lookup does yield none, but the verify_feature_access caller does
not treat it as "feature unknown": it answers the same 402
upgrade-required error shape as for a genuinely locked feature, with
X-Required-Tier defaulted to "premium" — indistinguishable in kind from
the locked-feature response shown for advanced_ask.
-/
theorem c8_counterexample :
    required_tier_lookup "nonexistent_feature" = none ∧
    verify_feature_access "nonexistent_feature" ⟨[], [], []⟩ 1 =
      .error ⟨402, [("X-Current-Tier", "free"),
                    ("X-Required-Tier", "premium"),
                    ("X-Feature-Name", "nonexistent_feature"),
                    ("X-Upgrade-Required", "true")]⟩ ∧
    verify_feature_access "advanced_ask" ⟨[], [], []⟩ 1 =
      .error ⟨402, [("X-Current-Tier", "free"),
                    ("X-Required-Tier", "premium"),
                    ("X-Feature-Name", "advanced_ask"),
                    ("X-Upgrade-Required", "true")]⟩ :=
  ⟨by decide, rfl, rfl⟩

/--
C8 amended: the inline required-tier computation returns the lowest-ranked
tier (in catalog order free, premium, pro) whose feature list contains the
feature, and none when the feature occurs in no list; the /feature-access
route handler surfaces none as a 404 (feature unknown, distinct from
locked), but the verify_feature_access middleware substitutes "premium"
for none and answers the same 402 upgrade-required shape as for a locked
feature.
-/
theorem c8_required_tier_amended
    (db : DB) (user_id : Nat) (feature_name : String) :
    ((tierFeaturesOf "free").contains feature_name = true →
      required_tier_lookup feature_name = some "free") ∧
    ((tierFeaturesOf "free").contains feature_name = false →
      (tierFeaturesOf "premium").contains feature_name = true →
      required_tier_lookup feature_name = some "premium") ∧
    ((tierFeaturesOf "free").contains feature_name = false →
      (tierFeaturesOf "premium").contains feature_name = false →
      (tierFeaturesOf "pro").contains feature_name = true →
      required_tier_lookup feature_name = some "pro") ∧
    ((tierFeaturesOf "free").contains feature_name = false →
      (tierFeaturesOf "premium").contains feature_name = false →
      (tierFeaturesOf "pro").contains feature_name = false →
      required_tier_lookup feature_name = none ∧
      route_check_feature_access db user_id feature_name =
        .error ⟨404, []⟩ ∧
      verify_feature_access feature_name db user_id =
        .error ⟨402, [("X-Current-Tier", get_user_tier db user_id),
                      ("X-Required-Tier", "premium"),
                      ("X-Feature-Name", feature_name),
                      ("X-Upgrade-Required", "true")]⟩) := by
  have hT : TIER_FEATURES =
      [("free", tierFeaturesOf "free"), ("premium", tierFeaturesOf "premium"),
       ("pro", tierFeaturesOf "pro")] := by rfl
  refine ⟨fun h1 => ?_, fun h1 h2 => ?_, fun h1 h2 h3 => ?_, fun h1 h2 h3 => ?_⟩
  · simp only [required_tier_lookup, hT]
    rw [List.find?_cons_of_pos (a := ("free", tierFeaturesOf "free")) _ h1]
    rfl
  · simp only [required_tier_lookup, hT]
    rw [List.find?_cons_of_neg (a := ("free", tierFeaturesOf "free")) _
        (by simp only [h1]; simp),
      List.find?_cons_of_pos (a := ("premium", tierFeaturesOf "premium")) _ h2]
    rfl
  · simp only [required_tier_lookup, hT]
    rw [List.find?_cons_of_neg (a := ("free", tierFeaturesOf "free")) _
        (by simp only [h1]; simp),
      List.find?_cons_of_neg (a := ("premium", tierFeaturesOf "premium")) _
        (by simp only [h2]; simp),
      List.find?_cons_of_pos (a := ("pro", tierFeaturesOf "pro")) _ h3]
    rfl
  · have hnone : required_tier_lookup feature_name = none := by
      simp only [required_tier_lookup, hT]
      rw [List.find?_cons_of_neg (a := ("free", tierFeaturesOf "free")) _
          (by simp only [h1]; simp),
        List.find?_cons_of_neg (a := ("premium", tierFeaturesOf "premium")) _
          (by simp only [h2]; simp),
        List.find?_cons_of_neg (a := ("pro", tierFeaturesOf "pro")) _
          (by simp only [h3]; simp)]
      rfl
    have h1L : (["basic_ask", "basic_journal", "basic_quest", "basic_explore",
        "basic_forum"] : List String).contains feature_name = false := h1
    have h2L : (["basic_ask", "basic_journal", "basic_quest", "basic_explore",
        "basic_forum", "advanced_ask", "unlimited_journal", "advanced_quest",
        "advanced_explore", "advanced_forum", "extended_responses",
        "insight_expansion", "advanced_visualization"] :
          List String).contains feature_name = false := h2
    have h3L : (["basic_ask", "basic_journal", "basic_quest", "basic_explore",
        "basic_forum", "advanced_ask", "unlimited_journal", "advanced_quest",
        "advanced_explore", "advanced_forum", "extended_responses",
        "insight_expansion", "advanced_visualization", "unlimited_ask",
        "custom_pathways", "premium_ai_models", "exclusive_content",
        "unlimited_export"] : List String).contains feature_name = false := h3
    have hnoacc : ∀ g : String,
        (available_features g).contains feature_name = false := by
      intro g
      simp only [available_features, hT, collectFeatures]
      split_ifs <;>
        simp only [contains_append, h1, h2, h3, h1L, h2L, h3L,
          List.contains_nil, Bool.or_self, Bool.or_false, Bool.false_or]
    have hexists : TIER_FEATURES.any
        (fun p => p.2.contains feature_name) = false := by
      rw [hT]
      simp only [List.any_cons, List.any_nil, h1, h2, h3, Bool.or_self,
        Bool.or_false]
    have hacc : check_feature_access db user_id feature_name = false :=
      hnoacc (get_user_tier db user_id)
    refine ⟨hnone, ?_, ?_⟩
    · unfold route_check_feature_access
      rw [hexists]
      rfl
    · unfold verify_feature_access
      rw [hacc, hnone]
      rfl

/--
Witness for C8, exercising the some-"pro" branch at custom_pathways and
the none branch (404 route answer and 402 premium middleware answer) at a
feature occurring in no tier.
-/
theorem c8_witness :
    required_tier_lookup "custom_pathways" = some "pro" ∧
    required_tier_lookup "nonexistent_xyz" = none ∧
    route_check_feature_access ⟨[], [], []⟩ 1 "nonexistent_xyz" =
      .error ⟨404, []⟩ ∧
    verify_feature_access "nonexistent_xyz" ⟨[], [], []⟩ 1 =
      .error ⟨402, [("X-Current-Tier", get_user_tier ⟨[], [], []⟩ 1),
                    ("X-Required-Tier", "premium"),
                    ("X-Feature-Name", "nonexistent_xyz"),
                    ("X-Upgrade-Required", "true")]⟩ := by
  obtain ⟨hn, hroute, hmw⟩ :=
    (c8_required_tier_amended ⟨[], [], []⟩ 1 "nonexistent_xyz").2.2.2
      (by decide) (by decide) (by decide)
  exact ⟨(c8_required_tier_amended ⟨[], [], []⟩ 1 "custom_pathways").2.2.1
      (by decide) (by decide) (by decide), hn, hroute, hmw⟩

/--
C10: the track_usage dependency never raises for any user, feature,
amount, or quota state: it always returns the current user (with the
computed rate-limit headers), and when the pre-check reports not allowed
it performs no increment, leaving the store exactly as it was — so a
route guarded only by track_usage still executes after the daily limit is
reached.
-/
theorem c10_track_usage_never_rejects
    (db : DB) (user_id today : Nat) (feature_name : String)
    (amount reset_seconds : Int) :
    (∃ hdrs db2, track_usage feature_name amount db user_id today
        reset_seconds = .ok (user_id, hdrs, db2)) ∧
    ((check_rate_limit db user_id feature_name today reset_seconds).1 = false →
      ∃ hdrs, track_usage feature_name amount db user_id today
        reset_seconds = .ok (user_id, hdrs, db)) := by
  constructor
  · exact ⟨_, _, rfl⟩
  · intro hna
    have hdb : (increment_and_check db user_id feature_name amount today
        reset_seconds).2 = db := by
      simp [increment_and_check, hna]
    refine ⟨get_rate_limit_headers
        (increment_and_check db user_id feature_name amount today
          reset_seconds).1.1
        (increment_and_check db user_id feature_name amount today
          reset_seconds).1.2.1
        (increment_and_check db user_id feature_name amount today
          reset_seconds).1.2.2, ?_⟩
    simp only [track_usage]
    rw [hdb]

/--
Witness for C10 at an exhausted quota: free user with 10 of 10
ask_questions used today; track_usage still returns the user and leaves
the store untouched.
-/
theorem c10_witness :
    ∃ hdrs, track_usage "ask_questions" 1
        ⟨[], [(⟨1, "ask_questions", 0⟩, 10)], []⟩ 1 0 0 =
      .ok (1, hdrs, ⟨[], [(⟨1, "ask_questions", 0⟩, 10)], []⟩) :=
  (c10_track_usage_never_rejects
    ⟨[], [(⟨1, "ask_questions", 0⟩, 10)], []⟩ 1 0 "ask_questions" 1 0).2
    (by decide)

/-- SubscriptionUpdate (schemas/subscription.py): the updatable fields the
core reads; unset fields are none (pydantic exclude_unset). -/
structure SubscriptionUpdate where
  subscription_tier : Option String
  status : Option String
  cancel_at_period_end : Option Bool
  deriving DecidableEq, Repr

/-- The setattr loop of update_subscription (subscription_service.py lines
208-210): set each field that was provided. -/
def applyUpdate (sub : UserSubscription) (u : SubscriptionUpdate) :
    UserSubscription :=
  { subscription_tier := u.subscription_tier.getD sub.subscription_tier,
    status := u.status.getD sub.status,
    cancel_at_period_end :=
      u.cancel_at_period_end.getD sub.cancel_at_period_end }

/-- Committing a mutated subscription row back to the store. -/
def setSubscription (db : DB) (user_id : Nat) (s : UserSubscription) : DB :=
  { db with
    subscriptions :=
      db.subscriptions.map (fun p => if p.1 == user_id then (p.1, s) else p) }

/-- SubscriptionService._record_subscription_event (lines 472-503): append
an event row. -/
def record_subscription_event (db : DB) (user_id : Nat) (event_type : String)
    (previous_tier new_tier : Option String) : DB :=
  { db with
    events := db.events ++ [⟨user_id, event_type, previous_tier, new_tier⟩] }

/-- SubscriptionService.update_subscription (lines 184-235): 404 when no
row; apply the provided fields, commit, and record a subscription_changed
event when a (truthy) tier was provided that differs from the tier held
before the update. -/
def update_subscription (db : DB) (user_id : Nat) (u : SubscriptionUpdate) :
    Except HTTPError (UserSubscription × DB) :=
  match get_user_subscription db user_id with
  | none => .error { status_code := 404, headers := [] }
  | some sub =>
    let previous_tier := sub.subscription_tier
    let sub2 := applyUpdate sub u
    let db1 := setSubscription db user_id sub2
    match u.subscription_tier with
    | some t =>
      if t != "" && previous_tier != t then
        .ok (sub2, record_subscription_event db1 user_id
          "subscription_changed" (some previous_tier) (some t))
      else .ok (sub2, db1)
    | none => .ok (sub2, db1)

/-- SubscriptionService.cancel_subscription (lines 237-286): 404 when no
row; immediate cancellation sets status canceled and tier free, otherwise
sets cancel_at_period_end; commits and refreshes, then records the event
reading previous_tier from the already-mutated refreshed row (line 271
runs after the line 258 mutation and the commit). -/
def cancel_subscription (db : DB) (user_id : Nat) (immediate : Bool) :
    Except HTTPError (UserSubscription × DB) :=
  match get_user_subscription db user_id with
  | none => .error { status_code := 404, headers := [] }
  | some sub =>
    let sub2 :=
      if immediate then
        { sub with status := "canceled", subscription_tier := "free" }
      else { sub with cancel_at_period_end := true }
    let db1 := setSubscription db user_id sub2
    let event_type :=
      if immediate then "subscription_canceled_immediate"
      else "subscription_canceled_period_end"
    .ok (sub2, record_subscription_event db1 user_id event_type
      (some sub2.subscription_tier)
      (some (if immediate then "free" else sub2.subscription_tier)))

/--
C9 (evaluating the code at the failing input): immediately cancelling the
active premium subscription of user 1 appends an event whose
previous_tier is "free" — the tier is overwritten to "free" before the
event is built, so the tier held before the change ("premium") is lost;
update_subscription, by contrast, captures the pre-change tier correctly,
shown at a free-to-premium upgrade for user 2.
-/
theorem c9_cancel_event_wrong_previous_tier :
    (cancel_subscription ⟨[(1, ⟨"premium", "active", false⟩)], [], []⟩ 1
        true).map (fun r => r.2.events) =
      .ok [⟨1, "subscription_canceled_immediate", some "free", some "free"⟩] ∧
    (update_subscription ⟨[(2, ⟨"free", "active", false⟩)], [], []⟩ 2
        ⟨some "premium", none, none⟩).map (fun r => r.2.events) =
      .ok [⟨2, "subscription_changed", some "free", some "premium"⟩] :=
  ⟨rfl, rfl⟩

/-- Per-call state of the interleaving model of increment_and_check for a
tracked feature (fixed limit, active tier): phase 0 = before the
FeatureUsage SELECT of check_usage_limit, phase 1 = before the FeatureUsage
SELECT of increment_usage, phase 2 = before the INSERT-or-UPDATE commit of
increment_usage, phase 3 = done. -/
structure CallSt where
  phase : Nat
  allowed : Bool
  remaining : Int
  row_seen : Option Int
  inc_amount : Int
  deriving DecidableEq, Repr

/-- A call that has not yet touched the store. -/
def initialCall : CallSt := ⟨0, false, 0, none, 0⟩

/-- One store access of one increment_and_check(amount) call against a
single (user, feature, day) row holding `row` (none = no row). Phase 0 is
the check read (computing allowed, remaining and the capped
min(amount, remaining), all pure between store calls; a not-allowed call
stops without further store access). Phase 1 is increment_usage's own read
of the row. Phase 2 is its write: create the row with inc_amount when the
phase-1 read saw none, else add inc_amount to the value seen at phase 1 —
exactly the separate SELECT-then-commit of the source, with no locking. -/
def stepCall (limit amount : Int) (row : Option Int) (c : CallSt) :
    Option Int × CallSt :=
  match c.phase with
  | 0 =>
    let used := row.getD 0
    let remaining := max 0 (limit - used)
    if 0 < remaining then
      (row, ⟨1, true, remaining, c.row_seen, min amount remaining⟩)
    else
      (row, ⟨3, false, remaining, c.row_seen, c.inc_amount⟩)
  | 1 => (row, ⟨2, c.allowed, c.remaining, row, c.inc_amount⟩)
  | 2 =>
    let v :=
      match c.row_seen with
      | none => c.inc_amount
      | some v0 => v0 + c.inc_amount
    (some v, ⟨3, c.allowed, c.remaining, c.row_seen, c.inc_amount⟩)
  | _ => (row, c)

/-- Run two concurrent calls A and B under a schedule (true = A moves,
false = B moves); the store serializes the individual accesses, but
nothing serializes whole calls. Returns the final row and both calls. -/
def runSched (limit amount : Int) :
    List Bool → Option Int → CallSt → CallSt → Option Int × CallSt × CallSt
  | [], row, a, b => (row, a, b)
  | true :: rest, row, a, b =>
    let s := stepCall limit amount row a
    runSched limit amount rest s.1 s.2 b
  | false :: rest, row, a, b =>
    let s := stepCall limit amount row b
    runSched limit amount rest s.1 a s.2

/--
C2 (evaluating the code at the failing schedule): with K = 2 concurrent
incrementAndCheck(amount=1) calls on a fresh key and limit L = 1, the
fully interleaved schedule A,B,A,B,A,B makes both calls report
allowed=true (2 ≠ L) with final counter 1; against an existing count of 1
with limit 10, both calls read the prior value 1 and both write 2 — the
lost-update the claim rules out. A serial schedule of the same two calls
behaves as the claim demands (one allowed, counter 1): the violation is
the unsynchronized read-then-write, not the arithmetic.
-/
theorem c2_lost_update_interleaving :
    (runSched 1 1 [true, false, true, false, true, false] none initialCall
        initialCall).1 = some 1 ∧
    (runSched 1 1 [true, false, true, false, true, false] none initialCall
        initialCall).2.1.allowed = true ∧
    (runSched 1 1 [true, false, true, false, true, false] none initialCall
        initialCall).2.2.allowed = true ∧
    (runSched 10 1 [true, false, true, false, true, false] (some 1)
        initialCall initialCall).2.1.row_seen = some 1 ∧
    (runSched 10 1 [true, false, true, false, true, false] (some 1)
        initialCall initialCall).2.2.row_seen = some 1 ∧
    (runSched 10 1 [true, false, true, false, true, false] (some 1)
        initialCall initialCall).1 = some 2 ∧
    (runSched 1 1 [true, true, true, false] none initialCall
        initialCall).1 = some 1 ∧
    (runSched 1 1 [true, true, true, false] none initialCall
        initialCall).2.1.allowed = true ∧
    (runSched 1 1 [true, true, true, false] none initialCall
        initialCall).2.2.allowed = false := by
  decide
